import Mathlib

/-!
Shallow embedding of the rs-fsrs scheduling engine
(src/scheduler/basic.rs, src/scheduler/short_term.rs, src/scheduler/longterm.rs).

Rust f64 values are modelled as exact rationals (ℚ); the engine only adds,
compares, and takes min/max of provider outputs, so the ordering and
state-machine claims are faithfully captured over ℚ. Rust's `as i64` cast on
an f64 truncates toward zero (f64ToI64 below; the saturation at the i64
bounds is never relevant to these claims). Timestamps (chrono DateTime<Utc>)
are modelled as integer seconds and chrono Durations as integer numbers of
seconds.

The memory-model provider (parameters.rs), the review context (base.rs) and
the branch container (cards.rs) are not part of the given sources; they are
modelled from the spec where noted, as an abstract collaborator interface.
-/

/-- Recall-quality rating, src Rating enum: Again, Hard, Good, Easy. -/
inductive Rating where
  | Again
  | Hard
  | Good
  | Easy
deriving DecidableEq, Repr

/-- Card lifecycle state. basic.rs / short_term.rs call the steady state
`Reviewing`; longterm.rs (an older snapshot of the same enum) calls it
`Review`. One constructor models both spellings. -/
inductive State where
  | New
  | Learning
  | Relearning
  | Reviewing
deriving DecidableEq, Repr

/-- Timestamps in integer seconds, modelling chrono DateTime<Utc>. -/
abbrev Instant := Int

/-- Chrono Duration::minutes, in seconds. -/
def Duration.minutes (m : Int) : Int := 60 * m

/-- Chrono Duration::days, in seconds. -/
def Duration.days (d : Int) : Int := 86400 * d

/-- Rust f64-to-i64 `as` cast: truncation toward zero. -/
def f64ToI64 (x : ℚ) : Int := if 0 ≤ x then ⌊x⌋ else -⌊-x⌋

/-- Card record: the union of the fields the three scheduler files touch
(state, difficulty, stability, due, elapsed_days, scheduled_days, reps,
lapses, plus short_term.rs's rating and reviewed_at fields). -/
structure Card where
  state : State
  difficulty : ℚ
  stability : ℚ
  due : Instant
  elapsed_days : Int
  scheduled_days : Int
  reps : Int
  lapses : Int
  rating : Rating
  reviewed_at : Instant
deriving DecidableEq, Repr

instance : Inhabited Card :=
  ⟨{ state := .New, difficulty := 0, stability := 0, due := 0, elapsed_days := 0,
     scheduled_days := 0, reps := 0, lapses := 0, rating := .Good, reviewed_at := 0 }⟩

/-- Modelled from the spec: parameters.rs is not in src/. §4.1 fixes the
collaborator contract of the memory-model provider: pure, deterministic
functions of the configured weights. They are kept fully abstract here —
every claim about the scheduler is proved for an arbitrary provider.
`retrievability` takes the card snapshot and the as-of timestamp, as in the
calls `last.retrievability(p, now)`. `next_interval` takes stability and
elapsed days; §4.1 says the short-term variant treats elapsedDays as 0. -/
structure Parameters where
  init_difficulty : Rating → ℚ
  init_stability : Rating → ℚ
  next_difficulty : ℚ → Rating → ℚ
  short_term_stability : ℚ → Rating → ℚ
  next_stability : ℚ → ℚ → ℚ → Rating → ℚ
  next_forget_stability : ℚ → ℚ → ℚ → ℚ
  next_recall_stability : ℚ → ℚ → ℚ → Rating → ℚ
  retrievability : Card → Instant → ℚ
  next_interval : ℚ → Int → ℚ

/-- Method-call form card.retrievability(p, now), delegating to the provider. -/
def Card.retrievability (c : Card) (p : Parameters) (now : Instant) : ℚ :=
  p.retrievability c now

/-- Review Log, spec §3: rating applied, prior lifecycle state, elapsed_days,
scheduled_days, review timestamp. basic.rs names the type `Review` and
longterm.rs names it `ReviewLog`; one structure models both. -/
structure ReviewLog where
  rating : Rating
  state : State
  elapsed_days : Int
  scheduled_days : Int
  reviewed_date : Instant
deriving DecidableEq, Repr

instance : Inhabited ReviewLog :=
  ⟨{ rating := .Good, state := .New, elapsed_days := 0, scheduled_days := 0,
     reviewed_date := 0 }⟩

/-- Basic's schedule output: card plus review log (basic.rs `Schedule`). -/
structure Schedule where
  card : Card
  review : ReviewLog
deriving DecidableEq, Repr

/-- Longterm's outcome: card plus review log (longterm.rs `SchedulingInfo`). -/
structure SchedulingInfo where
  card : Card
  review_log : ReviewLog
deriving DecidableEq, Repr

instance : Inhabited SchedulingInfo := ⟨{ card := default, review_log := default }⟩

/-- Modelled from the spec: base.rs (the Review Context, §4.2) is not in
src/. It bundles the configuration, `now`, `last` (card snapshot before this
review), `current` (the card being advanced) and, for Long-Term only, the
rating-keyed outcome cache. §3 says elapsed_days is caller-supplied on the
card, so construction takes the card as given for both snapshots and starts
with an empty cache. -/
structure Base where
  parameters : Parameters
  last : Card
  current : Card
  now : Instant
  next : Rating → Option SchedulingInfo

/-- Modelled from the spec: Base::new(parameters, card, now). -/
def Base.new (parameters : Parameters) (card : Card) (now : Instant) : Base :=
  { parameters, last := card, current := card, now, next := fun _ => none }

/-- Modelled from the spec: Base::build_log builds a Review Log for a rating
from `last` / `current` / `now` (§4.2), with the prior lifecycle state and
the current snapshot's elapsed_days and scheduled_days (§3). -/
def Base.build_log (b : Base) (rating : Rating) : ReviewLog :=
  { rating
    state := b.last.state
    elapsed_days := b.current.elapsed_days
    scheduled_days := b.current.scheduled_days
    reviewed_date := b.now }

/-- Modelled from the spec: Base::current_review, the same log constructor
under the name basic.rs calls. -/
def Base.current_review (b : Base) (rating : Rating) : ReviewLog :=
  b.build_log rating

/-- Modelled from the spec: cards.rs (the Branch Container, §2) is not in
src/; it clones a card into four rating-indexed variants. -/
structure Cards where
  again : Card
  hard : Card
  good : Card
  easy : Card

/-- Modelled from the spec: Cards::new clones the card into all four slots. -/
def Cards.new (c : Card) : Cards := ⟨c, c, c, c⟩

/-- Modelled from the spec: Cards::update applies one update function to all
four rating-indexed variants uniformly. -/
def Cards.update (cs : Cards) (f : Rating → Card → Card) : Cards :=
  { again := f .Again cs.again
    hard := f .Hard cs.hard
    good := f .Good cs.good
    easy := f .Easy cs.easy }

/-- Modelled from the spec: Cards::get selects the branch for a rating. -/
def Cards.get (cs : Cards) : Rating → Card
  | .Again => cs.again
  | .Hard => cs.hard
  | .Good => cs.good
  | .Easy => cs.easy

/-- The private next_state helper defined identically in basic.rs and
short_term.rs: Again lapses to Relearning, the rest stay Reviewing. -/
def next_state : Rating → State
  | .Again => .Relearning
  | .Hard | .Good | .Easy => .Reviewing

/-- Basic strategy, basic.rs: `pub struct Basic(Base)`. -/
structure Basic where
  b : Base

/-- Basic::new. -/
def Basic.new (parameters : Parameters) (card : Card) (now : Instant) : Basic :=
  ⟨Base.new parameters card now⟩

/-- Basic::review_new, basic.rs lines 38-59. -/
def Basic.review_new (s : Basic) (rating : Rating) : Card :=
  let p := s.b.parameters
  let card :=
    { s.b.current with
      difficulty := p.init_difficulty rating
      stability := p.init_stability rating }
  let dds : Int × Int × State :=
    match rating with
    | .Again => (0, Duration.minutes 1, .Learning)
    | .Hard => (0, Duration.minutes 5, .Learning)
    | .Good => (0, Duration.minutes 10, .Learning)
    | .Easy =>
        let easy_interval := f64ToI64 (p.next_interval card.stability card.elapsed_days)
        (easy_interval, Duration.days easy_interval, .Reviewing)
  { card with
    scheduled_days := dds.1
    due := s.b.now + dds.2.1
    state := dds.2.2 }

/-- Basic::review_learning, basic.rs lines 61-90. -/
def Basic.review_learning (s : Basic) (rating : Rating) : Card :=
  let p := s.b.parameters
  let interval := s.b.current.elapsed_days
  let card :=
    { s.b.current with
      difficulty := p.next_difficulty s.b.last.difficulty rating
      stability := p.short_term_stability s.b.last.stability rating }
  let dds : Int × Int × State :=
    match rating with
    | .Again => (0, Duration.minutes 5, s.b.last.state)
    | .Hard => (0, Duration.minutes 10, s.b.last.state)
    | .Good =>
        let good_interval := f64ToI64 (p.next_interval card.stability interval)
        (good_interval, Duration.days good_interval, .Reviewing)
    | .Easy =>
        let good_stability := p.short_term_stability s.b.last.stability .Good
        let good_interval := p.next_interval good_stability interval
        let easy_interval :=
          f64ToI64 (max (p.next_interval card.stability interval) (good_interval + 1))
        (easy_interval, Duration.days easy_interval, .Reviewing)
  { card with
    scheduled_days := dds.1
    due := s.b.now + dds.2.1
    state := dds.2.2 }

/-- Basic::review_intervals, basic.rs lines 127-147: sequential min/max
clamping of the three recall intervals, then the i64 casts. -/
def Basic.review_intervals (s : Basic) (hard_stability good_stability easy_stability : ℚ)
    (interval : Int) : Int × Int × Int :=
  let p := s.b.parameters
  let hard_interval := p.next_interval hard_stability interval
  let good_interval := p.next_interval good_stability interval
  let hard_interval := min hard_interval good_interval
  let good_interval := max good_interval (hard_interval + 1)
  let easy_interval := max (p.next_interval easy_stability interval) (good_interval + 1)
  (f64ToI64 hard_interval, f64ToI64 good_interval, f64ToI64 easy_interval)

/-- Basic::review_reviewing, basic.rs lines 92-125. -/
def Basic.review_reviewing (s : Basic) (rating : Rating) : Card :=
  let p := s.b.parameters
  let interval := s.b.current.elapsed_days
  let stability := s.b.last.stability
  let difficulty := s.b.last.difficulty
  let retrievability := s.b.last.retrievability p s.b.now
  let cards :=
    (Cards.new s.b.current).update fun rating card =>
      { card with
        difficulty := p.next_difficulty difficulty rating
        stability := p.next_stability difficulty stability retrievability rating }
  let ivs := s.review_intervals cards.hard.stability cards.good.stability
    cards.easy.stability interval
  let ddl : Int × Int × Int :=
    match rating with
    | .Again => (0, Duration.minutes 5, 1)
    | .Hard => (ivs.1, Duration.days ivs.1, 0)
    | .Good => (ivs.2.1, Duration.days ivs.2.1, 0)
    | .Easy => (ivs.2.2, Duration.days ivs.2.2, 0)
  let card := cards.get rating
  { card with
    scheduled_days := ddl.1
    due := s.b.now + ddl.2.1
    lapses := card.lapses + ddl.2.2
    state := next_state rating }

/-- Basic::next_card, basic.rs lines 26-32: dispatch on last.state. -/
def Basic.next_card (s : Basic) (rating : Rating) : Card :=
  match s.b.last.state with
  | .New => s.review_new rating
  | .Learning | .Relearning => s.review_learning rating
  | .Reviewing => s.review_reviewing rating

/-- Basic::current_review. -/
def Basic.current_review (s : Basic) (rating : Rating) : ReviewLog :=
  s.b.current_review rating

/-- Basic::schedule, basic.rs lines 19-24. -/
def Basic.schedule (s : Basic) (rating : Rating) : Schedule :=
  { card := s.next_card rating, review := s.current_review rating }

/-- Short-Term strategy, short_term.rs: holds now, parameters and the prior
card directly (no Base). Spec §4.4: identical dispatch, but nextInterval is
always invoked with elapsed_days = 0. -/
structure ShortTerm where
  now : Instant
  parameters : Parameters
  card : Card

/-- ShortTerm::new. -/
def ShortTerm.new (parameters : Parameters) (card : Card) (now : Instant) : ShortTerm :=
  { parameters, card, now }

/-- ShortTerm::review_new, short_term.rs lines 33-56. The one-argument
next_interval call of this file is the provider's nextInterval with
elapsedDays treated as 0 (spec §4.1). -/
def ShortTerm.review_new (s : ShortTerm) (rating : Rating) : Card :=
  let p := s.parameters
  let card :=
    { s.card with
      difficulty := p.init_difficulty rating
      stability := p.init_stability rating
      reviewed_at := s.now }
  let ds : Int × State :=
    match rating with
    | .Again => (Duration.minutes 1, .Learning)
    | .Hard => (Duration.minutes 5, .Learning)
    | .Good => (Duration.minutes 10, .Learning)
    | .Easy =>
        let easy_interval := f64ToI64 (p.next_interval card.stability 0)
        (Duration.days easy_interval, .Reviewing)
  { card with due := s.now + ds.1, state := ds.2 }

/-- ShortTerm::review_learning, short_term.rs lines 58-87. -/
def ShortTerm.review_learning (s : ShortTerm) (rating : Rating) : Card :=
  let p := s.parameters
  let last := s.card
  let card :=
    { s.card with
      difficulty := p.next_difficulty last.difficulty rating
      stability := p.short_term_stability last.stability rating
      reviewed_at := s.now }
  let ds : Int × State :=
    match rating with
    | .Again => (Duration.minutes 5, last.state)
    | .Hard => (Duration.minutes 10, last.state)
    | .Good =>
        let good_interval := f64ToI64 (p.next_interval card.stability 0)
        (Duration.days good_interval, .Reviewing)
    | .Easy =>
        let good_stability := p.short_term_stability last.stability .Good
        let good_interval := p.next_interval good_stability 0
        let easy_interval :=
          f64ToI64 (max (p.next_interval card.stability 0) (good_interval + 1))
        (Duration.days easy_interval, .Reviewing)
  { card with due := s.now + ds.1, state := ds.2 }

/-- ShortTerm::review_reviewing, short_term.rs lines 89-110: single-branch
computation, no cross-branch clamp, no lapse counting. -/
def ShortTerm.review_reviewing (s : ShortTerm) (rating : Rating) : Card :=
  let p := s.parameters
  let stability := s.card.stability
  let difficulty := s.card.difficulty
  let retrievability := s.card.retrievability p s.now
  let card :=
    { s.card with
      difficulty := p.next_difficulty difficulty rating
      stability := p.next_stability difficulty stability retrievability rating
      reviewed_at := s.now }
  let interval := p.next_interval card.stability 0
  let due := s.now +
    match rating with
    | .Again => Duration.minutes 5
    | .Hard | .Good | .Easy => Duration.days (f64ToI64 interval)
  { card with due, state := next_state rating }

/-- ShortTerm::next_card, short_term.rs lines 23-31: dispatch on card.state,
then record the applied rating on the output card. -/
def ShortTerm.next_card (s : ShortTerm) (rating : Rating) : Card :=
  let out :=
    match s.card.state with
    | .New => s.review_new rating
    | .Learning | .Relearning => s.review_learning rating
    | .Reviewing => s.review_reviewing rating
  { out with rating }

/-- Long-Term strategy, longterm.rs: `pub struct Longterm(Base)`; methods
take &mut self, modelled by threading the Longterm value. -/
structure Longterm where
  b : Base

/-- Longterm::new. -/
def Longterm.new (parameters : Parameters) (card : Card) (now : Instant) : Longterm :=
  ⟨Base.new parameters card now⟩

/-- Longterm::init_difficulty_stability, longterm.rs lines 105-123. -/
def Longterm.init_difficulty_stability (s : Longterm)
    (next_again next_hard next_good next_easy : Card) : Card × Card × Card × Card :=
  let p := s.b.parameters
  ({ next_again with difficulty := p.init_difficulty .Again, stability := p.init_stability .Again },
   { next_hard with difficulty := p.init_difficulty .Hard, stability := p.init_stability .Hard },
   { next_good with difficulty := p.init_difficulty .Good, stability := p.init_stability .Good },
   { next_easy with difficulty := p.init_difficulty .Easy, stability := p.init_stability .Easy })

/-- Longterm::next_difficulty_stability, longterm.rs lines 126-159: the split
forget/recall stability formulas populate the four branches. -/
def Longterm.next_difficulty_stability (s : Longterm)
    (next_again next_hard next_good next_easy : Card)
    (difficulty stability retrievability : ℚ) : Card × Card × Card × Card :=
  let p := s.b.parameters
  ({ next_again with
      difficulty := p.next_difficulty difficulty .Again
      stability := p.next_forget_stability difficulty stability retrievability },
   { next_hard with
      difficulty := p.next_difficulty difficulty .Hard
      stability := p.next_recall_stability difficulty stability retrievability .Hard },
   { next_good with
      difficulty := p.next_difficulty difficulty .Good
      stability := p.next_recall_stability difficulty stability retrievability .Good },
   { next_easy with
      difficulty := p.next_difficulty difficulty .Easy
      stability := p.next_recall_stability difficulty stability retrievability .Easy })

/-- Longterm::next_interval, longterm.rs lines 161-202: the four raw
intervals, the shared sequential clamp again/hard/good/easy, then
scheduled_days and due on each branch card. -/
def Longterm.next_interval (s : Longterm)
    (next_again next_hard next_good next_easy : Card)
    (elapsed_days : Int) : Card × Card × Card × Card :=
  let p := s.b.parameters
  let again_interval := p.next_interval next_again.stability elapsed_days
  let hard_interval := p.next_interval next_hard.stability elapsed_days
  let good_interval := p.next_interval next_good.stability elapsed_days
  let easy_interval := p.next_interval next_easy.stability elapsed_days
  let again_interval := min again_interval hard_interval
  let hard_interval := max hard_interval (again_interval + 1)
  let good_interval := max good_interval (hard_interval + 1)
  let easy_interval := max easy_interval (good_interval + 1)
  ({ next_again with
      scheduled_days := f64ToI64 again_interval
      due := s.b.now + Duration.days (f64ToI64 again_interval) },
   { next_hard with
      scheduled_days := f64ToI64 hard_interval
      due := s.b.now + Duration.days (f64ToI64 hard_interval) },
   { next_good with
      scheduled_days := f64ToI64 good_interval
      due := s.b.now + Duration.days (f64ToI64 good_interval) },
   { next_easy with
      scheduled_days := f64ToI64 easy_interval
      due := s.b.now + Duration.days (f64ToI64 easy_interval) })

/-- Longterm::next_state, longterm.rs lines 204-215: every branch goes to the
Review(ing) state. -/
def Longterm.next_state (_s : Longterm)
    (next_again next_hard next_good next_easy : Card) : Card × Card × Card × Card :=
  ({ next_again with state := .Reviewing },
   { next_hard with state := .Reviewing },
   { next_good with state := .Reviewing },
   { next_easy with state := .Reviewing })

/-- Longterm::update_next, longterm.rs lines 217-245: build the four
SchedulingInfo items with fresh logs and insert all four into the cache. -/
def Longterm.update_next (s : Longterm)
    (next_again next_hard next_good next_easy : Card) : Longterm :=
  let item : Rating → SchedulingInfo := fun r =>
    match r with
    | .Again => { card := next_again, review_log := s.b.build_log .Again }
    | .Hard => { card := next_hard, review_log := s.b.build_log .Hard }
    | .Good => { card := next_good, review_log := s.b.build_log .Good }
    | .Easy => { card := next_easy, review_log := s.b.build_log .Easy }
  { s with b := { s.b with next := fun r => some (item r) } }

/-- Longterm::new_state, longterm.rs lines 19-55: cache hit returns the
cached outcome; otherwise snapshot current, zero current's scheduled and
elapsed days, compute all four branches with the init formulas and elapsed 0,
clamp, set states, cache all four, and read the requested rating back
(the unwrap of a just-populated map, modelled with getD). -/
def Longterm.new_state (s : Longterm) (rating : Rating) : SchedulingInfo × Longterm :=
  match s.b.next rating with
  | some exist => (exist, s)
  | none =>
    let next := s.b.current
    let s : Longterm :=
      ⟨{ s.b with current := { s.b.current with scheduled_days := 0, elapsed_days := 0 } }⟩
    let (next_again, next_hard, next_good, next_easy) :=
      s.init_difficulty_stability next next next next
    let (next_again, next_hard, next_good, next_easy) :=
      s.next_interval next_again next_hard next_good next_easy 0
    let (next_again, next_hard, next_good, next_easy) :=
      s.next_state next_again next_hard next_good next_easy
    let s := s.update_next next_again next_hard next_good next_easy
    ((s.b.next rating).getD default, s)

/-- Longterm::review_state, longterm.rs lines 61-103: cache hit returns the
cached outcome; otherwise compute all four branches with the split
forget/recall formulas, clamp, set states, bump the Again branch's lapses,
cache all four, and read the requested rating back. -/
def Longterm.review_state (s : Longterm) (rating : Rating) : SchedulingInfo × Longterm :=
  match s.b.next rating with
  | some exist => (exist, s)
  | none =>
    let next := s.b.current
    let interval := s.b.current.elapsed_days
    let stability := s.b.last.stability
    let difficulty := s.b.last.difficulty
    let retrievability := s.b.last.retrievability s.b.parameters s.b.now
    let (next_again, next_hard, next_good, next_easy) :=
      s.next_difficulty_stability next next next next difficulty stability retrievability
    let (next_again, next_hard, next_good, next_easy) :=
      s.next_interval next_again next_hard next_good next_easy interval
    let (next_again, next_hard, next_good, next_easy) :=
      s.next_state next_again next_hard next_good next_easy
    let next_again := { next_again with lapses := next_again.lapses + 1 }
    let s := s.update_next next_again next_hard next_good next_easy
    ((s.b.next rating).getD default, s)

/-- Longterm::learning_state, longterm.rs lines 57-59: delegates to
review_state. -/
def Longterm.learning_state (s : Longterm) (rating : Rating) : SchedulingInfo × Longterm :=
  s.review_state rating

/-- Longterm::review, longterm.rs lines 247-253: dispatch on last.state. -/
def Longterm.review (s : Longterm) (rating : Rating) : SchedulingInfo × Longterm :=
  match s.b.last.state with
  | .New => s.new_state rating
  | .Learning | .Relearning => s.learning_state rating
  | .Reviewing => s.review_state rating

/-- The provider with its nextInterval elapsed-days argument fixed to 0: the
elapsed-time-correction-removed transformation that spec §4.4 says turns the
Basic strategy's formula calls into the Short-Term strategy's. -/
def Parameters.zeroElapsed (p : Parameters) : Parameters :=
  { p with next_interval := fun stability _ => p.next_interval stability 0 }

/-- A concrete memory-model provider for witnesses and counterexamples. Its
next_interval is nonnegative (max with 0) as §4.1's interval-length contract
implies, and equals the stability argument on the positive values reached in
the concrete runs below. -/
def pTest : Parameters :=
  { init_difficulty := fun _ => 5
    init_stability := fun _ => 3
    next_difficulty := fun d _ => d
    short_term_stability := fun s _ => s
    next_stability := fun _ s _ _ => s + 1
    next_forget_stability := fun _ s _ => s
    next_recall_stability := fun _ s _ _ => s + 1
    retrievability := fun _ _ => 9 / 10
    next_interval := fun s _ => max s 0 }

/-- A brand-new card at timestamp 0. -/
def cardNew : Card :=
  { state := .New, difficulty := 0, stability := 0, due := 0, elapsed_days := 0,
    scheduled_days := 0, reps := 0, lapses := 0, rating := .Good, reviewed_at := 0 }

/-- A steady-state Reviewing card with two elapsed days. -/
def cardReviewing : Card :=
  { cardNew with state := .Reviewing, difficulty := 5, stability := 4, elapsed_days := 2 }

/-- Transition table of spec §4.3, stated from the spec's words for
comparison with the code: from New, Again/Hard/Good go to Learning and Easy
to Reviewing; from Learning/Relearning, Again/Hard stay in the prior state
and Good/Easy go to Reviewing; from Reviewing, Again goes to Relearning and
the rest stay in Reviewing. -/
def specNextState : State → Rating → State
  | .New, .Easy => .Reviewing
  | .New, _ => .Learning
  | .Learning, .Again | .Learning, .Hard => .Learning
  | .Relearning, .Again | .Relearning, .Hard => .Relearning
  | .Learning, _ | .Relearning, _ => .Reviewing
  | .Reviewing, .Again => .Relearning
  | .Reviewing, _ => .Reviewing

/-- Truncation toward zero is monotone. -/
theorem f64ToI64_mono {x y : ℚ} (h : x ≤ y) : f64ToI64 x ≤ f64ToI64 y := by
  unfold f64ToI64
  by_cases hx : 0 ≤ x <;> by_cases hy : 0 ≤ y <;> simp [hx, hy]
  · exact Int.floor_le_floor h
  · linarith
  · have h1 : (0:ℤ) ≤ ⌊-x⌋ := Int.floor_nonneg.mpr (by linarith)
    have h2 : (0:ℤ) ≤ ⌊y⌋ := Int.floor_nonneg.mpr hy
    omega
  · have := Int.floor_le_floor (neg_le_neg h)
    omega

/-- Truncation commutes with adding one day on nonnegative values. -/
theorem f64ToI64_add_one (x : ℚ) (hx : 0 ≤ x) : f64ToI64 (x + 1) = f64ToI64 x + 1 := by
  unfold f64ToI64
  rw [if_pos (by linarith), if_pos hx, Int.floor_add_one]

/-- When the raw hard and good intervals tie, the clamped good interval
exceeds the clamped hard interval by at least one whole day. -/
theorem clamp3_tie_hard (h0 g0 : ℚ) (hh : 0 ≤ h0) (heq : h0 = g0) :
    f64ToI64 (min h0 g0) + 1 ≤ f64ToI64 (max g0 (min h0 g0 + 1)) := by
  subst heq
  rw [min_self, max_eq_right (by linarith), f64ToI64_add_one _ hh]

/-- When the raw good and easy intervals tie, the clamped easy interval
exceeds the clamped good interval by at least one whole day. -/
theorem clamp3_tie_easy (h0 g0 e0 : ℚ) (hg : 0 ≤ g0) (heq : g0 = e0) :
    f64ToI64 (max g0 (min h0 g0 + 1)) + 1
      ≤ f64ToI64 (max e0 (max g0 (min h0 g0 + 1) + 1)) := by
  subst heq
  have h1 : g0 ≤ max g0 (min h0 g0 + 1) := le_max_left _ _
  have hX : max g0 (max g0 (min h0 g0 + 1) + 1) = max g0 (min h0 g0 + 1) + 1 :=
    max_eq_right (by linarith)
  rw [hX, f64ToI64_add_one _ (le_trans hg h1)]

/-- The three-way sequential clamp of Basic::review_intervals is ordered
after the i64 casts. -/
theorem clamp3_sched_chain (h0 g0 e0 : ℚ) :
    f64ToI64 (min h0 g0) ≤ f64ToI64 (max g0 (min h0 g0 + 1))
    ∧ f64ToI64 (max g0 (min h0 g0 + 1))
        ≤ f64ToI64 (max e0 (max g0 (min h0 g0 + 1) + 1)) := by
  refine ⟨f64ToI64_mono ?_, f64ToI64_mono ?_⟩
  · exact le_trans (min_le_right _ _) (le_max_left _ _)
  · exact le_trans (by linarith) (le_max_right _ _)

/-- The four-way sequential clamp of Longterm::next_interval is ordered
after the i64 casts. -/
theorem clamp4_sched_chain (a0 h0 g0 e0 : ℚ) :
    f64ToI64 (min a0 h0) ≤ f64ToI64 (max h0 (min a0 h0 + 1))
    ∧ f64ToI64 (max h0 (min a0 h0 + 1)) ≤ f64ToI64 (max g0 (max h0 (min a0 h0 + 1) + 1))
    ∧ f64ToI64 (max g0 (max h0 (min a0 h0 + 1) + 1))
        ≤ f64ToI64 (max e0 (max g0 (max h0 (min a0 h0 + 1) + 1) + 1)) := by
  refine ⟨f64ToI64_mono ?_, f64ToI64_mono ?_, f64ToI64_mono ?_⟩
  · exact le_trans (min_le_right _ _) (le_max_left _ _)
  · exact le_trans (by linarith) (le_max_right _ _)
  · exact le_trans (by linarith) (le_max_right _ _)

/-- C1 counterexample: at a New card rated Again, the Long-Term strategy's
review does not return the card that a freshly-constructed Basic strategy's
schedule produces (Long-Term emits a Reviewing-state card, Basic a
Learning-state card with a one-minute delay). -/
theorem longterm_review_ne_basic_schedule_at_new_again :
    (((Longterm.new pTest cardNew 0).review .Again).1).card
      ≠ ((Basic.new pTest cardNew 0).schedule .Again).card := by
  decide

/-- C1 (amended): caching does not change results — review(r₂) issued after
any earlier review(r₁) on the same Long-Term instance returns exactly the
outcome that review(r₂) on a freshly-constructed instance of the same review
event returns, for every provider, prior card, timestamp and rating pair. -/
theorem longterm_cache_preserves_results (p : Parameters) (c : Card) (now : Instant)
    (r₁ r₂ : Rating) :
    ((((Longterm.new p c now).review r₁).2).review r₂).1
      = ((Longterm.new p c now).review r₂).1 := by
  rcases c with ⟨st, d, stab, due, ed, sd, reps, lapses, ra, rat⟩
  cases st <;> cases r₁ <;> cases r₂ <;> rfl

/-- C2 counterexample: the Long-Term strategy does not follow the §4.3
transition table — a New card rated Again comes back in Reviewing state, not
the Learning state the table assigns. -/
theorem longterm_breaks_spec_transition_table :
    (((Longterm.new pTest cardNew 0).review .Again).1).card.state
        ≠ specNextState State.New Rating.Again
    ∧ (((Longterm.new pTest cardNew 0).review .Again).1).card.state
        = State.Reviewing := by
  decide

/-- C2 (amended): the Basic and Short-Term strategies follow the §4.3
transition table for every (lifecycle state, rating) pair and every
provider; the Long-Term strategy does not (it always emits Reviewing). -/
theorem basic_short_term_follow_transition_table (p : Parameters) (c : Card)
    (now : Instant) (r : Rating) :
    ((Basic.new p c now).next_card r).state = specNextState c.state r
    ∧ ((ShortTerm.new p c now).next_card r).state = specNextState c.state r := by
  rcases c with ⟨st, d, stab, due, ed, sd, reps, lapses, ra, rat⟩
  cases st <;> cases r <;> exact ⟨rfl, rfl⟩

/-- C3 (confirmed): for every Reviewing-state prior card and every
elapsed_days (carried on the card), the Basic strategy's scheduled days
satisfy Hard ≤ Good ≤ Easy, and whenever the raw (unclamped) intervals of
two adjacent outcomes tie, the later outcome exceeds the earlier by at least
one day. The provider's intervals are nonnegative day counts (§4.1). -/
theorem basic_review_interval_ordering (p : Parameters) (c : Card) (now : Instant)
    (hst : c.state = State.Reviewing) (hnn : ∀ s n, 0 ≤ p.next_interval s n) :
    (((Basic.new p c now).next_card .Hard).scheduled_days
        ≤ ((Basic.new p c now).next_card .Good).scheduled_days
      ∧ ((Basic.new p c now).next_card .Good).scheduled_days
        ≤ ((Basic.new p c now).next_card .Easy).scheduled_days)
    ∧ ∀ hs gs es n,
        (p.next_interval hs n = p.next_interval gs n →
          ((Basic.new p c now).review_intervals hs gs es n).1 + 1
            ≤ ((Basic.new p c now).review_intervals hs gs es n).2.1)
        ∧ (p.next_interval gs n = p.next_interval es n →
          ((Basic.new p c now).review_intervals hs gs es n).2.1 + 1
            ≤ ((Basic.new p c now).review_intervals hs gs es n).2.2) := by
  rcases c with ⟨st, d, stab, due, ed, sd, reps, lapses, ra, rat⟩
  cases hst
  constructor
  · exact clamp3_sched_chain _ _ _
  · intro hs gs es n
    exact ⟨fun heq => clamp3_tie_hard _ _ (hnn hs n) heq,
           fun heq => clamp3_tie_easy _ _ _ (hnn gs n) heq⟩

/-- C3 witness: the ordering theorem applied to the concrete provider and
Reviewing card. -/
theorem basic_review_interval_ordering_witness :
    cardReviewing.state = State.Reviewing
    ∧ ((Basic.new pTest cardReviewing 0).next_card .Hard).scheduled_days
        ≤ ((Basic.new pTest cardReviewing 0).next_card .Good).scheduled_days :=
  ⟨rfl, ((basic_review_interval_ordering pTest cardReviewing 0 rfl
      (fun s _ => le_max_right s 0)).1).1⟩

/-- C4 counterexample: on a Reviewing card rated Again, the Short-Term
strategy leaves lapses unchanged while the Basic strategy (even with the
elapsed-time correction removed) increments them, so the two Reviewing-state
outcomes are not identical. -/
theorem short_term_reviewing_ne_basic_zero_elapsed :
    ((ShortTerm.new pTest cardReviewing 0).next_card .Again).lapses
      ≠ ((Basic.new pTest.zeroElapsed cardReviewing 0).next_card .Again).lapses := by
  decide

/-- C4 (amended): the Short-Term strategy performs the identical state
dispatch and produces the same difficulty, stability and state as the Basic
strategy with the elapsed-time correction removed (next_interval forced to
elapsed_days = 0), for every prior card and rating; the due timestamps also
agree in the New and Learning/Relearning branches. In the Reviewing branch
the intervals and lapse counts may differ (no cross-branch clamp, no lapse
increment). -/
theorem short_term_matches_basic_zero_elapsed (p : Parameters) (c : Card)
    (now : Instant) (r : Rating) :
    ((ShortTerm.new p c now).next_card r).state
        = ((Basic.new p.zeroElapsed c now).next_card r).state
    ∧ ((ShortTerm.new p c now).next_card r).difficulty
        = ((Basic.new p.zeroElapsed c now).next_card r).difficulty
    ∧ ((ShortTerm.new p c now).next_card r).stability
        = ((Basic.new p.zeroElapsed c now).next_card r).stability
    ∧ (c.state ≠ State.Reviewing →
        ((ShortTerm.new p c now).next_card r).due
          = ((Basic.new p.zeroElapsed c now).next_card r).due) := by
  rcases c with ⟨st, d, stab, due, ed, sd, reps, lapses, ra, rat⟩
  cases st <;> cases r <;>
    refine ⟨rfl, rfl, rfl, fun h => ?_⟩ <;>
    first
      | rfl
      | exact absurd rfl h

/-- C4 witness: the agreement theorem applied to the concrete provider and a
New card, with its non-Reviewing hypothesis discharged. -/
theorem short_term_matches_basic_zero_elapsed_witness :
    ((ShortTerm.new pTest cardNew 0).next_card .Good).due
      = ((Basic.new pTest.zeroElapsed cardNew 0).next_card .Good).due :=
  (short_term_matches_basic_zero_elapsed pTest cardNew 0 .Good).2.2.2 (by decide)

/-- C5 (confirmed): on a Long-Term instance, the first review call populates
the cache with all four rating outcomes in one pass, and every subsequent
review(r) returns the already-cached Outcome unchanged, leaving the instance
as it was; in particular review(r) issued again on the resulting instance
returns the identical Outcome. -/
theorem longterm_first_call_populates_cache (p : Parameters) (c : Card)
    (now : Instant) (r₁ r : Rating) :
    ((((Longterm.new p c now).review r₁).2).b.next r).isSome = true
    ∧ ((((Longterm.new p c now).review r₁).2).review r).2
        = (((Longterm.new p c now).review r₁).2)
    ∧ ((((Longterm.new p c now).review r₁).2).review r).1
        = ((((Longterm.new p c now).review r₁).2).b.next r).getD default
    ∧ ((((Longterm.new p c now).review r₁).2).review r₁).1
        = ((Longterm.new p c now).review r₁).1 := by
  rcases c with ⟨st, d, stab, due, ed, sd, reps, lapses, ra, rat⟩
  cases st <;> cases r₁ <;> exact ⟨rfl, rfl, rfl, rfl⟩

/-- C6 (confirmed): after the shared clamping pass, the scheduled days of
the four outcomes the Long-Term strategy caches satisfy
again ≤ hard ≤ good ≤ easy for every provider, prior card (hence every
elapsed_days) and timestamp, so the Again outcome is the shortest of the
four. -/
theorem longterm_cached_interval_ordering (p : Parameters) (c : Card)
    (now : Instant) (r : Rating) :
    (((((Longterm.new p c now).review r).2).b.next .Again).getD default).card.scheduled_days
      ≤ (((((Longterm.new p c now).review r).2).b.next .Hard).getD default).card.scheduled_days
    ∧ (((((Longterm.new p c now).review r).2).b.next .Hard).getD default).card.scheduled_days
      ≤ (((((Longterm.new p c now).review r).2).b.next .Good).getD default).card.scheduled_days
    ∧ (((((Longterm.new p c now).review r).2).b.next .Good).getD default).card.scheduled_days
      ≤ (((((Longterm.new p c now).review r).2).b.next .Easy).getD default).card.scheduled_days := by
  rcases c with ⟨st, d, stab, due, ed, sd, reps, lapses, ra, rat⟩
  cases st <;> exact clamp4_sched_chain _ _ _ _

/-- C7 (confirmed): in the Basic strategy, for every Reviewing-state prior
card, rating Again yields a card due 5 minutes after now with
scheduled_days = 0, lapses incremented by exactly 1, and state Relearning,
while Hard, Good and Easy leave lapses unchanged, set state Reviewing, and
schedule the corresponding clamped interval in days (due = now + that many
days). -/
theorem basic_reviewing_outcomes (p : Parameters) (c : Card) (now : Instant)
    (hst : c.state = State.Reviewing) :
    ((Basic.new p c now).next_card .Again).due = now + Duration.minutes 5
    ∧ ((Basic.new p c now).next_card .Again).scheduled_days = 0
    ∧ ((Basic.new p c now).next_card .Again).lapses = c.lapses + 1
    ∧ ((Basic.new p c now).next_card .Again).state = State.Relearning
    ∧ (∀ r, r ≠ Rating.Again →
        ((Basic.new p c now).next_card r).lapses = c.lapses
        ∧ ((Basic.new p c now).next_card r).state = State.Reviewing
        ∧ ((Basic.new p c now).next_card r).due
            = now + Duration.days (((Basic.new p c now).next_card r).scheduled_days))
    ∧ ((Basic.new p c now).next_card .Hard).scheduled_days
        = ((Basic.new p c now).review_intervals
            (p.next_stability c.difficulty c.stability (c.retrievability p now) .Hard)
            (p.next_stability c.difficulty c.stability (c.retrievability p now) .Good)
            (p.next_stability c.difficulty c.stability (c.retrievability p now) .Easy)
            c.elapsed_days).1
    ∧ ((Basic.new p c now).next_card .Good).scheduled_days
        = ((Basic.new p c now).review_intervals
            (p.next_stability c.difficulty c.stability (c.retrievability p now) .Hard)
            (p.next_stability c.difficulty c.stability (c.retrievability p now) .Good)
            (p.next_stability c.difficulty c.stability (c.retrievability p now) .Easy)
            c.elapsed_days).2.1
    ∧ ((Basic.new p c now).next_card .Easy).scheduled_days
        = ((Basic.new p c now).review_intervals
            (p.next_stability c.difficulty c.stability (c.retrievability p now) .Hard)
            (p.next_stability c.difficulty c.stability (c.retrievability p now) .Good)
            (p.next_stability c.difficulty c.stability (c.retrievability p now) .Easy)
            c.elapsed_days).2.2 := by
  rcases c with ⟨st, d, stab, due, ed, sd, reps, lapses, ra, rat⟩
  cases hst
  refine ⟨rfl, rfl, rfl, rfl, ?_, rfl, rfl, rfl⟩
  intro r hr
  cases r
  · exact absurd rfl hr
  all_goals exact ⟨add_zero _, rfl, rfl⟩

/-- C7 witness: the Reviewing-state outcome theorem applied to the concrete
provider and card. -/
theorem basic_reviewing_outcomes_witness :
    cardReviewing.state = State.Reviewing
    ∧ ((Basic.new pTest cardReviewing 0).next_card .Again).lapses
        = cardReviewing.lapses + 1
    ∧ ((Basic.new pTest cardReviewing 0).next_card .Again).state = State.Relearning :=
  ⟨rfl, (basic_reviewing_outcomes pTest cardReviewing 0 rfl).2.2.1,
    (basic_reviewing_outcomes pTest cardReviewing 0 rfl).2.2.2.1⟩

/-- C8 (confirmed): for fixed configuration, prior card, timestamp and
rating, the scheduling operations are deterministic: each strategy's
operation is a pure function of those inputs (two invocations coincide), and
the stateful Long-Term instance returns the identical Outcome when review is
invoked repeatedly. -/
theorem schedulers_deterministic (p : Parameters) (c : Card) (now : Instant)
    (r : Rating) :
    (Basic.new p c now).schedule r = (Basic.new p c now).schedule r
    ∧ (ShortTerm.new p c now).next_card r = (ShortTerm.new p c now).next_card r
    ∧ (((Longterm.new p c now).review r).2.review r).1
        = ((Longterm.new p c now).review r).1 := by
  refine ⟨rfl, rfl, ?_⟩
  rcases c with ⟨st, d, stab, due, ed, sd, reps, lapses, ra, rat⟩
  cases st <;> cases r <;> rfl

/-- C9 (confirmed): for every prior lifecycle state and every rating, the
card returned by the Long-Term strategy's review is in the Review(ing)
state; Long-Term never emits a New, Learning or Relearning card, so a New
card rated Again bypasses the Learning phase entirely. -/
theorem longterm_always_reviewing (p : Parameters) (c : Card) (now : Instant)
    (r : Rating) :
    (((Longterm.new p c now).review r).1).card.state = State.Reviewing := by
  rcases c with ⟨st, d, stab, due, ed, sd, reps, lapses, ra, rat⟩
  cases st <;> cases r <;> rfl

/-- C10 (confirmed): for every prior card and every rating, the card the
Short-Term strategy's next_card returns carries the requested rating in its
rating field and the review timestamp in its reviewed_at field, in every
lifecycle-state branch. -/
theorem short_term_sets_rating_reviewed_at (p : Parameters) (c : Card)
    (now : Instant) (r : Rating) :
    ((ShortTerm.new p c now).next_card r).rating = r
    ∧ ((ShortTerm.new p c now).next_card r).reviewed_at = now := by
  rcases c with ⟨st, d, stab, due, ed, sd, reps, lapses, ra, rat⟩
  cases st <;> cases r <;> exact ⟨rfl, rfl⟩
